import Mathlib

/-!
Shallow embedding of the voice-agent backend (`backend/main.py`,
`backend/modules/voice_agent.py`, `backend/modules/audio_handler.py`,
`backend/modules/conversation_logger.py`) and proofs about it.

Conventions:
* Audio frames are modelled as lists of bytes (`List Nat`).
* JSON objects received from the upstream connection are modelled
  structurally: the fields the code reads via `.get(...)` become `Option`
  fields; a text message whose body is not valid JSON is a distinct
  constructor (`TextMsg.malformed`), since `json.loads` raises there.
* Coroutines become pure functions producing a trace of externally visible
  actions (`Act`) plus a state transition; blocking behaviour (a wait
  that never completes) is an explicit constructor.
* File I/O performed by the conversation logger (`_save_to_file`) is outside
  the model; the logger state keeps the in-memory fields the code mutates.
-/

/-- A raw audio frame (bytes of a binary websocket message). -/
def Frame := List Nat
deriving DecidableEq, Inhabited

/-! ## Audio output buffer (`audio_handler.Speaker` and `_play_audio`) -/

/-- State of the `Speaker` playback pipeline: `queued` are the frames sitting
in the janus queue (pushed by `Speaker.play`, not yet taken by the
`_play_audio` thread), oldest first; `delivered` are the frames the
`_play_audio` consumer has already handed to the sink, in delivery order. -/
structure SpeakerState where
  queued : List Frame
  delivered : List Frame
deriving DecidableEq

namespace Speaker

/-- Models `Speaker.play`: enqueue one frame at the back of the queue
(`self._queue.async_q.put(data)`). -/
def play (s : SpeakerState) (f : Frame) : SpeakerState :=
  { s with queued := s.queued ++ [f] }

/-- Models `Speaker.stop`: drain the queue with `get_nowait` until empty, leaving
frames already handed to the sink alone. -/
def stop (s : SpeakerState) : SpeakerState :=
  { s with queued := [] }

/-- One iteration of the `_play_audio` consumer thread: take the oldest
queued frame (`sync_q.get`) and hand it to the sink (`stream.write` or the
browser relay); if the queue is empty the timeout fires and nothing
changes. -/
def consumeOne (s : SpeakerState) : SpeakerState :=
  match s.queued with
  | [] => s
  | f :: rest => { queued := rest, delivered := s.delivered ++ [f] }

end Speaker

/-! ## Conversation logger (`conversation_logger.ConversationLogger`) -/

/-- In-memory state of `ConversationLogger`: the active `session_id` (if a
session was started) and the accumulated `conversation` list of
(role, content) pairs.  `start_time`, `start_date` and `log_file` only feed
the JSON file written by `_save_to_file`, which is I/O outside the model. -/
structure LoggerState where
  session_id : Option String
  conversation : List (String × String)
deriving DecidableEq

namespace ConversationLogger

/-- Models `ConversationLogger.start_session`: record the id and reset the
conversation list. -/
def start_session (_st : LoggerState) (request_id : String) : LoggerState :=
  { session_id := some request_id, conversation := [] }

/-- Models `ConversationLogger.add_message`: appends a (role, content) event, unless
there is no active session (`if not self.session_id: return` — both `None`
and the empty string are falsy in Python). -/
def add_message (st : LoggerState) (role content : String) : LoggerState :=
  match st.session_id with
  | none => st
  | some sid =>
      if sid = "" then st
      else { st with conversation := st.conversation ++ [(role, content)] }

/-- Models `ConversationLogger.end_session`: final save, then reset every field. -/
def end_session (_st : LoggerState) : LoggerState :=
  { session_id := none, conversation := [] }

end ConversationLogger

/-! ## Voice-agent shutdown (`VoiceAgent.shutdown` and helpers) -/

/-- The upstream websocket handle: once created it stays referenced by the
agent (`self.ws` is never reset to `None`); only its open/closed status
changes. -/
structure WsHandle where
  closed : Bool
deriving DecidableEq

/-- Close a possibly-absent websocket handle.  The `close()` of the `websockets` library
 (and the `close_websocket_with_timeout` wrapper, which swallows
every exception) is idempotent: closing a closed connection leaves it
closed. -/
def closeWsHandle : Option WsHandle → Option WsHandle
  | none => none
  | some _ => some ⟨true⟩

/-- The fields of a `VoiceAgent` that `shutdown` touches. -/
structure AgentState where
  is_running : Bool
  shutdown_event : Bool
  conversation_logger : LoggerState
  tasks : List String
  ws : Option WsHandle
  stream_open : Bool
  audio_active : Bool
deriving DecidableEq

namespace VoiceAgent

/-- Models `VoiceAgent.cancel_all_tasks`: cancel every managed task, await them all,
then `self.tasks.clear()` (an early return when the set is already empty
ends in the same state). -/
def cancel_all_tasks (s : AgentState) : AgentState :=
  { s with tasks := [] }

/-- Models `VoiceAgent.cleanup`: stop/close the input stream and terminate the
audio object; every exception is caught and logged. -/
def cleanup (s : AgentState) : AgentState :=
  { s with stream_open := false, audio_active := false }

/-- Models `VoiceAgent.shutdown`: clear the running flag, set the shutdown event,
end the conversation-logger session, cancel all tasks, close the upstream
websocket if present (errors caught), and clean up audio resources. -/
def shutdown (s : AgentState) : AgentState :=
  let s1 := { s with is_running := false, shutdown_event := true }
  let s2 := { s1 with
    conversation_logger := ConversationLogger.end_session s1.conversation_logger }
  let s3 := cancel_all_tasks s2
  let s4 := { s3 with ws := closeWsHandle s3.ws }
  cleanup s4

/-- Models `VoiceAgent.setup`: fail when `DEEPGRAM_API_KEY` is absent; otherwise
succeed exactly when both `websockets.connect` and the initial
`ws.send(settings)` succeed (any exception in the `try` returns `False`). -/
def setup (dg_api_key : Option String) (connect_ok send_ok : Bool) : Bool :=
  match dg_api_key with
  | none => false
  | some _ => connect_ok && send_ok

end VoiceAgent

/-! ## Session registry (`backend/main.py`: `voice_agents`) -/

/-- The process-wide `voice_agents` dictionary, keyed by `id(websocket)`;
agents are identified by an abstract token. -/
def Registry := Nat → Option Nat

/-- Models `voice_agents[websocket_id] = voice_agent`. -/
def Registry.insertAgent (reg : Registry) (wsId agent : Nat) : Registry :=
  fun k => if k = wsId then some agent else reg k

/-- Models `if websocket_id in voice_agents: del voice_agents[websocket_id]`. -/
def Registry.removeAgent (reg : Registry) (wsId : Nat) : Registry :=
  fun k => if k = wsId then none else reg k

/-- Registry trace of `run_voice_agent_in_thread`: the agent is stored in
`voice_agents` *before* `voice_agent.run()` is started (and hence before
`setup()` is attempted); whether the run fails in `setup` or ends normally,
the `finally` block removes the entry.  The returned list is the sequence of
registry states after each mutation, in order. -/
def run_voice_agent_in_thread (reg : Registry) (wsId agent : Nat)
    (_setup_ok : Bool) : List Registry :=
  let reg1 := Registry.insertAgent reg wsId agent
  let reg2 := Registry.removeAgent reg1 wsId
  [reg1, reg2]

/-- The `start_voice_agent` branch of `websocket_endpoint`: when the id is
not yet in `voice_agents` the thread is submitted (which registers the new
agent); otherwise only a warning is logged and nothing changes.  Returns the
updated registry and whether a new agent was started. -/
def websocket_endpoint_start (reg : Registry) (wsId agent : Nat) :
    Registry × Bool :=
  if (reg wsId).isSome then (reg, false)
  else (Registry.insertAgent reg wsId agent, true)

/-! ## Upstream protocol messages

`VoiceAgent.receiver` iterates over the upstream websocket.  Binary
messages are audio frames; text messages are passed to `json.loads`.  The
code reads the fields `type`, `role`, `content`, `request_id` with
`.get(...)` (absent → `None`) and `functions` with `.get("functions", [])`. -/

/-- The `arguments` value of one entry of a `FunctionCallRequest`, as fed to
`json.loads`: a JSON string that either parses to a parameter object or
fails to decode. -/
inductive ArgPayload
  | jsonStr (parse : Option (List (String × String)))
deriving DecidableEq

/-- Parsed function parameters (`parameters` in `_handle_function_call`). -/
def Args := List (String × String)
deriving DecidableEq

/-- One entry of the `functions` list of a `FunctionCallRequest`. -/
structure FuncEntry where
  name : Option String
  id : Option String
  arguments : Option ArgPayload
deriving DecidableEq

/-- A decoded upstream JSON object, restricted to the fields the receiver
reads.  `functions` is `[]` when the key is absent (the default in the code). -/
structure MsgJson where
  type : Option String
  role : Option String
  content : Option String
  request_id : Option String
  functions : List FuncEntry
deriving DecidableEq

/-- A text frame from the upstream connection: either valid JSON or a body
on which `json.loads` raises `JSONDecodeError`. -/
inductive TextMsg
  | malformed
  | decoded (j : MsgJson)
deriving DecidableEq

/-- An upstream websocket message. -/
inductive UpstreamMsg
  | binary (data : Frame)
  | text (t : TextMsg)
deriving DecidableEq

/-- Python exceptions that escape `_handle_function_call` (they are raised
*outside* its `try` block) or escape per-message dispatch in the receiver. -/
inductive PyErr
  | jsonDecodeError
  | notImplementedError
  | indexError
  | typeError
deriving DecidableEq

/-- The content of a `FunctionCallResponse`: the code sends either
`json.dumps(result)` for a successful handler result or
`json.dumps({"error": str(e)})` when the `try` block caught an exception. -/
inductive RespContent
  | ok (payload : String)
  | error (msg : String)
deriving DecidableEq

/-- The injected message dict built by the business handlers
(`{"type": "InjectAgentMessage", "message": ...}`); only the `message`
field is read back by `wait_for_farewell_completion`. -/
structure InjectMsg where
  message : String
deriving DecidableEq

/-- The result shape `_handle_agent_filler` / `_handle_end_call` read from
the special handlers: `result["inject_message"]` and
`result["function_response"]` (the latter kept in its `json.dumps` form). -/
structure SpecialResult where
  inject_message : InjectMsg
  function_response : String
deriving DecidableEq

/-- Externally visible effects of the receiver and its helpers, in order. -/
inductive Act
  | sendResponse (callId fname : Option String) (content : RespContent)
  | sendInject (m : InjectMsg)
  | playAudio (data : Frame)
  | stopSpeaker
  | forwardToClient (j : MsgJson)
  | notifyStopped (reason : String)
  | settleDelay
  | closeUpstream
  | forceCloseUpstream
  | setShutdown
  | startLogSession (request_id : String)
  | logError (e : PyErr)
deriving DecidableEq

/-- A registered function handler.  `FUNCTION_MAP` maps plain business
functions (called as `func(parameters)`) and the two special names
(called as `func(self.ws, parameters)`, returning the extended shape).
A handler either returns (for plain ones, the `json.dumps` of its result)
or raises, in which case the dispatcher sees `str(e)`. -/
inductive HandlerSpec
  | plain (run : Args → Except String String)
  | special (run : Args → Except String SpecialResult)

/-- The function registry: `FUNCTION_MAP.get(name)`. -/
def FMap := String → Option HandlerSpec

/-- Call a handler through the plain convention `func(parameters)`; calling
a two-argument special handler this way raises a `TypeError`, which the
`try` block of the dispatcher catches like any handler exception. -/
def callPlain : HandlerSpec → Args → Except String String
  | .plain run, a => run a
  | .special _, _ => .error "TypeError"

/-- Call a handler through the special convention `func(self.ws,
parameters)`; a one-argument handler raises a `TypeError` here. -/
def callSpecial : HandlerSpec → Args → Except String SpecialResult
  | .special run, a => run a
  | .plain _, _ => .error "TypeError"

/-- Models `parameters = json.loads(functions[0].get("arguments", {}))`, executed
*before* the `try` block: an absent `arguments` key makes `json.loads`
receive the `{}` dict default and raise `TypeError`; a malformed JSON
string raises `JSONDecodeError`.  Both escape the handler. -/
def parseArguments : Option ArgPayload → Except PyErr Args
  | none => .error .typeError
  | some (.jsonStr none) => .error .jsonDecodeError
  | some (.jsonStr (some a)) => .ok a

/-- The `ValueError` message raised for an unknown function name
(`f"Function {function_name} not found"`). -/
def notFoundMsg (fname : Option String) : String :=
  "Function " ++ fname.getD "None" ++ " not found"

/-! ## Farewell wait (`wait_for_farewell_completion`) -/

/-- The first wait condition: `AgentStartedSpeaking`, or a
`ConversationText` from the assistant whose `content` equals the injected
farewell text. -/
def isSpeakingEvidence (inject : InjectMsg) (j : MsgJson) : Bool :=
  j.type = some "AgentStartedSpeaking" ∨
    (j.type = some "ConversationText" ∧ j.role = some "assistant" ∧
      j.content = some inject.message)

/-- The second wait condition: `AgentAudioDone`. -/
def isAudioDone (j : MsgJson) : Bool :=
  j.type = some "AgentAudioDone"

/-- One `while` loop of `wait_for_farewell_completion`: read messages until
one decodes to a JSON object satisfying `p`.  Binary messages are played
through the speaker; messages that fail to decode are skipped (the
`except json.JSONDecodeError: continue`).  Returns the actions emitted and,
when a matching message was found, the number of messages consumed
(including the match); `none` means the stream ran out, i.e. the loop would
block forever on `ws.recv()`. -/
def scanUntil (p : MsgJson → Bool) : List UpstreamMsg → List Act × Option Nat
  | [] => ([], none)
  | .binary d :: rest =>
      let s := scanUntil p rest
      (.playAudio d :: s.1, s.2.map (· + 1))
  | .text .malformed :: rest =>
      let s := scanUntil p rest
      (s.1, s.2.map (· + 1))
  | .text (.decoded j) :: rest =>
      if p j then ([], some 1)
      else
        let s := scanUntil p rest
        (s.1, s.2.map (· + 1))

/-- Models `wait_for_farewell_completion(ws, speaker, inject_message)`: inject the
farewell, wait for speaking evidence, then wait for `AgentAudioDone`, then
sleep 3.5 s.  On success returns the actions emitted and the number of
upstream messages consumed; `.error acts` models the coroutine blocking
forever after emitting `acts` because the awaited evidence never arrives. -/
def wait_for_farewell_completion (inject : InjectMsg)
    (stream : List UpstreamMsg) : Except (List Act) (List Act × Nat) :=
  let s1 := scanUntil (isSpeakingEvidence inject) stream
  match s1.2 with
  | none => .error (.sendInject inject :: s1.1)
  | some k1 =>
      let s2 := scanUntil isAudioDone (stream.drop k1)
      match s2.2 with
      | none => .error (.sendInject inject :: (s1.1 ++ s2.1))
      | some k2 =>
          .ok (.sendInject inject :: (s1.1 ++ s2.1 ++ [.settleDelay]), k1 + k2)

/-- Behaviour of the upstream close handshake inside
`close_websocket_with_timeout`: it completes within the timeout, times out,
or raises. -/
inductive CloseOutcome
  | completes
  | timesOut
  | raises
deriving DecidableEq

/-- Models `close_websocket_with_timeout`: await `ws.close()` under a timeout; on
timeout (or any error from the close handshake) fall back to
`ws.close_connection()`, the forced low-level close. -/
def close_websocket_with_timeout : CloseOutcome → List Act
  | .completes => [.closeUpstream]
  | .timesOut => [.closeUpstream, .forceCloseUpstream]
  | .raises => [.closeUpstream, .forceCloseUpstream]

/-- Models `VoiceAgent._handle_end_call`: send the `FunctionCallResponse`, run the
farewell wait, notify the frontend (`voice_agent_stopped` — only when a
client websocket and manager are attached), close the upstream connection
with a timeout, and set the shutdown event.  `connected` is whether
`self.websocket_connection and manager` holds; `co` is the behaviour of the
upstream close handshake.  `.error acts` again models blocking forever. -/
def handle_end_call (callId fname : Option String) (r : SpecialResult)
    (connected : Bool) (stream : List UpstreamMsg) (co : CloseOutcome) :
    Except (List Act) (List Act × Nat) :=
  match wait_for_farewell_completion r.inject_message stream with
  | .error a => .error (.sendResponse callId fname (.ok r.function_response) :: a)
  | .ok (wacts, k) =>
      .ok (.sendResponse callId fname (.ok r.function_response) ::
            (wacts ++ (if connected then [.notifyStopped "end_call"] else []) ++
              close_websocket_with_timeout co ++ [.setShutdown]), k)

/-- Models `VoiceAgent._handle_agent_filler`: send the `FunctionCallResponse`
first, then the `InjectAgentMessage`. -/
def handle_agent_filler (callId fname : Option String) (r : SpecialResult) :
    List Act :=
  [.sendResponse callId fname (.ok r.function_response),
   .sendInject r.inject_message]

/-! ## Function-call dispatch (`VoiceAgent._handle_function_call`) -/

/-- Outcome of `_handle_function_call`: the call raised an exception that
escapes into the receiver (`raised`), blocked forever inside the end-call
farewell wait (`blocked`), or completed having emitted `acts`, possibly set
the shutdown event, and consumed `consumed` further upstream messages. -/
inductive FCResult
  | raised (e : PyErr)
  | blocked (acts : List Act)
  | done (acts : List Act) (setsShutdown : Bool) (consumed : Nat)
deriving DecidableEq

/-- The error-shaped `FunctionCallResponse` sent from the `except` block
of the dispatcher: `content = json.dumps({"error": str(e)})`. -/
def errorResponse (f : FuncEntry) (e : String) : Act :=
  .sendResponse f.id f.name (.error e)

/-- Models `VoiceAgent._handle_function_call`.  Checks `len(functions) > 1` and
reads `functions[0]` and its arguments *before* the `try` block, so those
failures escape; inside the `try`, an unknown name raises `ValueError` and
every handler exception is caught and turned into an error-shaped
response.  `agent_filler` and `end_call` get the special protocol
treatment. -/
def handleFunctionCall (fmap : FMap) (connected : Bool) (co : CloseOutcome)
    (j : MsgJson) (stream : List UpstreamMsg) : FCResult :=
  let functions := j.functions
  if functions.length > 1 then .raised .notImplementedError
  else
    match functions with
    | [] => .raised .indexError
    | f :: _ =>
        match parseArguments f.arguments with
        | .error e => .raised e
        | .ok args =>
            match f.name.bind fmap with
            | none => .done [errorResponse f (notFoundMsg f.name)] false 0
            | some h =>
                if f.name = some "agent_filler" then
                  match callSpecial h args with
                  | .error e => .done [errorResponse f e] false 0
                  | .ok r => .done (handle_agent_filler f.id f.name r) false 0
                else if f.name = some "end_call" then
                  match callSpecial h args with
                  | .error e => .done [errorResponse f e] false 0
                  | .ok r =>
                      match handle_end_call f.id f.name r connected stream co with
                      | .error acts => .blocked acts
                      | .ok (acts, k) => .done acts true k
                else
                  match callPlain h args with
                  | .error e => .done [errorResponse f e] false 0
                  | .ok content =>
                      .done [.sendResponse f.id f.name (.ok content)] false 0

/-! ## Inbound loop (`VoiceAgent.receiver`) -/

/-- Receiver-visible mutable state: the conversation logger and the
`_shutdown_event`. -/
structure RecvState where
  conversation_logger : LoggerState
  shutdown_event : Bool
deriving DecidableEq

/-- How the receiver loop ended. -/
inductive RecvExit
  | drained
  | shutdownBreak
  | closedConn
  | errorStop (e : PyErr)
  | blockedForever
deriving DecidableEq

/-- Python truthiness of an optional string field (`if role and content:`):
absent and empty are falsy. -/
def truthy : Option String → Bool
  | none => false
  | some s => s ≠ ""

/-- The `ConversationText` branch of the receiver: forward the message to
the client as a `conversation_update` (when a client websocket and manager
are attached), then append to the conversation logger only when both
`role` and `content` are truthy. -/
def processConversationText (connected : Bool) (j : MsgJson)
    (lg : LoggerState) : List Act × LoggerState :=
  ((if connected then [.forwardToClient j] else []),
   if truthy j.role && truthy j.content then
     ConversationLogger.add_message lg (j.role.getD "") (j.content.getD "")
   else lg)

/-- The `Welcome` branch of the receiver: the log line slices
`request_id[:8]`, which raises `TypeError` when the field is absent; then
the logging session starts only when the id is truthy. -/
def processWelcome (j : MsgJson) (lg : LoggerState) :
    Except PyErr (List Act × LoggerState) :=
  match j.request_id with
  | none => .error .typeError
  | some rid =>
      if rid = "" then .ok ([], lg)
      else .ok ([.startLogSession rid], ConversationLogger.start_session lg rid)

/-- Models `VoiceAgent.receiver`: iterate over the upstream messages, checking the
shutdown event before each one.  A failure of `json.loads` on a text body,
or any exception escaping `_handle_function_call`, is caught only by the
outer `except Exception` handler of the receiver, which logs it and ends the
loop (the coroutine returns).  `CloseConnection` closes the upstream and
ends the loop normally. -/
def receiverRun (fmap : FMap) (connected : Bool) (co : CloseOutcome)
    (msgs : List UpstreamMsg) (st : RecvState) :
    List Act × RecvState × RecvExit :=
  match msgs with
  | [] => ([], st, .drained)
  | m :: rest =>
      if st.shutdown_event then ([], st, .shutdownBreak)
      else
        match m with
        | .binary d =>
            let r := receiverRun fmap connected co rest st
            (.playAudio d :: r.1, r.2)
        | .text .malformed =>
            ([.logError .jsonDecodeError], st, .errorStop .jsonDecodeError)
        | .text (.decoded j) =>
            match j.type with
            | some "UserStartedSpeaking" =>
                let r := receiverRun fmap connected co rest st
                (.stopSpeaker :: r.1, r.2)
            | some "ConversationText" =>
                let p := processConversationText connected j st.conversation_logger
                let r := receiverRun fmap connected co rest
                  { st with conversation_logger := p.2 }
                (p.1 ++ r.1, r.2)
            | some "FunctionCallRequest" =>
                match handleFunctionCall fmap connected co j rest with
                | .raised e => ([.logError e], st, .errorStop e)
                | .blocked acts => (acts, st, .blockedForever)
                | .done acts sd k =>
                    let r := receiverRun fmap connected co (rest.drop k)
                      { st with shutdown_event := st.shutdown_event || sd }
                    (acts ++ r.1, r.2)
            | some "Welcome" =>
                match processWelcome j st.conversation_logger with
                | .error e => ([.logError e], st, .errorStop e)
                | .ok (acts, lg) =>
                    let r := receiverRun fmap connected co rest
                      { st with conversation_logger := lg }
                    (acts ++ r.1, r.2)
            | some "CloseConnection" => ([.closeUpstream], st, .closedConn)
            | _ => receiverRun fmap connected co rest st
termination_by msgs.length
decreasing_by all_goals simp [List.length_drop] <;> omega

/-! ## Concrete fixtures used by witnesses and counterexamples -/

/-- A fresh receiver state: no logging session, shutdown not signalled. -/
def st0 : RecvState :=
  { conversation_logger := { session_id := none, conversation := [] },
    shutdown_event := false }

/-- A small concrete function registry: one business function that
succeeds, one that raises. -/
def fmapTest : FMap := fun n =>
  if n = "lookup_order" then some (.plain fun _ => .ok "order-found")
  else if n = "boom" then some (.plain fun _ => .error "boom")
  else none

/-- A well-formed single-function call to the known function. -/
def goodCallMsg : MsgJson :=
  { type := some "FunctionCallRequest", role := none, content := none,
    request_id := none,
    functions := [{ name := some "lookup_order", id := some "call-2",
                    arguments := some (.jsonStr (some [])) }] }

/-- A `FunctionCallRequest` carrying two functions. -/
def multiCallMsg : MsgJson :=
  { type := some "FunctionCallRequest", role := none, content := none,
    request_id := none,
    functions := [{ name := some "lookup_order", id := some "call-a",
                    arguments := some (.jsonStr (some [])) },
                  { name := some "boom", id := some "call-b",
                    arguments := some (.jsonStr (some [])) }] }

/-- A `FunctionCallRequest` with an empty `functions` list. -/
def emptyCallMsg : MsgJson :=
  { type := some "FunctionCallRequest", role := none, content := none,
    request_id := none, functions := [] }

/-- An ordinary user `ConversationText`. -/
def convTextMsg : MsgJson :=
  { type := some "ConversationText", role := some "user",
    content := some "hello", request_id := none, functions := [] }

/-- A `ConversationText` whose `content` field is absent. -/
def convTextNoContentMsg : MsgJson :=
  { type := some "ConversationText", role := some "user",
    content := none, request_id := none, functions := [] }

/-- Matches the error-shaped / ok-shaped discriminant of a response. -/
def isSendResponse : Act → Bool
  | .sendResponse _ _ _ => true
  | _ => false

/-- The all-empty registry. -/
def emptyRegistry : Registry := fun _ => none

/-- A registry holding agent 7 for identifier 5. -/
def regOne : Registry := fun k => if k = 5 then some 7 else none

/-- The single entry of a call to the raising function. -/
def boomEntry : FuncEntry :=
  { name := some "boom", id := some "call-b",
    arguments := some (.jsonStr (some [])) }

/-- A single-function call to the raising function. -/
def boomCallMsg : MsgJson :=
  { type := some "FunctionCallRequest", role := none, content := none,
    request_id := none, functions := [boomEntry] }

/-- A receiver state with an active logging session. -/
def st1 : RecvState :=
  { conversation_logger := { session_id := some "abc123", conversation := [] },
    shutdown_event := false }

/-- Whether some decoded text message in the list satisfies `p` (the
messages the farewell wait loops can ever match on). -/
def anyDecoded (p : MsgJson → Bool) : List UpstreamMsg → Bool
  | [] => false
  | .text (.decoded j) :: rest => p j || anyDecoded p rest
  | _ :: rest => anyDecoded p rest

/-- Characterisation of the farewell-completion evidence: some decoded
message is speaking evidence, and an `AgentAudioDone` follows strictly
after it. -/
def containsFarewellEvidence (inject : InjectMsg) : List UpstreamMsg → Bool
  | [] => false
  | .text (.decoded j) :: rest =>
      (isSpeakingEvidence inject j && anyDecoded isAudioDone rest) ||
        containsFarewellEvidence inject rest
  | _ :: rest => containsFarewellEvidence inject rest

/-- Returns `true` on `Except.ok`. -/
def exceptOk {α β : Type} : Except α β → Bool
  | .ok _ => true
  | .error _ => false

/-- Speaking-evidence fixture: an `AgentStartedSpeaking` notification. -/
def startedSpeakingMsg : MsgJson :=
  { type := some "AgentStartedSpeaking", role := none, content := none,
    request_id := none, functions := [] }

/-- An `AgentAudioDone` notification. -/
def audioDoneMsg : MsgJson :=
  { type := some "AgentAudioDone", role := none, content := none,
    request_id := none, functions := [] }

/-- A concrete farewell result as produced by `prepare_farewell_message`
for the general farewell. -/
def farewellResult : SpecialResult :=
  { inject_message := { message := "Goodbye! Have a nice day!" },
    function_response := "status closing" }

/-! ## Theorems -/

/-- C7: flushing the audio output buffer (`Speaker.stop`) empties exactly
the queued-but-not-yet-taken frames, leaves the frames already handed to
the sink untouched, and a frame pushed after the flush is delivered
normally by the next consumer iteration. -/
theorem C7_flush_exact (s : SpeakerState) (f : Frame) :
    (Speaker.stop s).queued = [] ∧
    (Speaker.stop s).delivered = s.delivered ∧
    Speaker.consumeOne (Speaker.play (Speaker.stop s) f) =
      { queued := [], delivered := s.delivered ++ [f] } := by
  refine ⟨rfl, rfl, ?_⟩
  simp [Speaker.stop, Speaker.play, Speaker.consumeOne]

/-- C8: `VoiceAgent.shutdown` is idempotent — running it a second time
reproduces the same end state (shutdown event set, tasks cancelled and
cleared, upstream connection closed, logger session ended), and the model
is total, so the second invocation raises nothing. -/
theorem C8_shutdown_idempotent (s : AgentState) :
    VoiceAgent.shutdown (VoiceAgent.shutdown s) = VoiceAgent.shutdown s ∧
    (VoiceAgent.shutdown s).shutdown_event = true ∧
    (VoiceAgent.shutdown s).is_running = false ∧
    (VoiceAgent.shutdown s).tasks = [] ∧
    (VoiceAgent.shutdown s).conversation_logger =
      { session_id := none, conversation := [] } ∧
    (VoiceAgent.shutdown s).ws = closeWsHandle s.ws := by
  cases hws : s.ws <;>
    simp [VoiceAgent.shutdown, VoiceAgent.cancel_all_tasks, VoiceAgent.cleanup,
      ConversationLogger.end_session, closeWsHandle, hws]

/-- C6: a `start_voice_agent` for an identifier that already has a
registered agent is rejected (no new agent started) and leaves the
registry — in particular the existing agent — untouched. -/
theorem C6_duplicate_start_rejected (reg : Registry) (wsId a b : Nat)
    (h : reg wsId = some a) :
    websocket_endpoint_start reg wsId b = (reg, false) ∧
    (websocket_endpoint_start reg wsId b).1 wsId = some a := by
  refine ⟨?_, ?_⟩ <;> simp [websocket_endpoint_start, h]

/-- C6 witness: with agent 7 registered for id 5, a second start with a new
agent 9 is rejected and agent 7 stays. -/
theorem C6_duplicate_start_rejected_witness :
    websocket_endpoint_start regOne 5 9 = (regOne, false) ∧
    (websocket_endpoint_start regOne 5 9).1 5 = some 7 :=
  C6_duplicate_start_rejected regOne 5 7 9 rfl

/-- C3 counterexample: starting from the empty registry with
`websocket_id = 5`, on the setup-failure path (`setup_ok = false`, and
`setup` with a missing key indeed fails) the first registry state of the
trace of the thread already maps 5 to the new agent: the registry *does*
transiently hold a mapping on the setup-failure path, because
`run_voice_agent_in_thread` registers the agent before `run()` ever calls
`setup()`. -/
theorem C3_counterexample :
    VoiceAgent.setup none true true = false ∧
    ((run_voice_agent_in_thread emptyRegistry 5 7 false).getD 0 emptyRegistry) 5
      = some 7 := by
  exact ⟨rfl, rfl⟩

/-- C3 (amended): whenever the credential is absent or connecting or the
initial send fails, `setup` returns failure; the thread registers the
session *before* running it, so the registry transiently holds the mapping,
and the `finally` block removes it — after the thread completes the
registry holds no entry for the identifier. -/
theorem C3_setup_failure_final_registry (k : Option String) (c s : Bool)
    (reg : Registry) (wsId agent : Nat) (ok : Bool)
    (hfail : k = none ∨ c = false ∨ s = false) :
    VoiceAgent.setup k c s = false ∧
    ((run_voice_agent_in_thread reg wsId agent ok).getD 0 reg) wsId
      = some agent ∧
    ((run_voice_agent_in_thread reg wsId agent ok).getLast?).map (fun r => r wsId)
      = some none := by
  refine ⟨?_, ?_, ?_⟩
  · rcases hfail with h | h | h
    · subst h; rfl
    · subst h; cases k <;> simp [VoiceAgent.setup]
    · subst h; cases k <;> simp [VoiceAgent.setup]
  · simp [run_voice_agent_in_thread, Registry.insertAgent]
  · simp [run_voice_agent_in_thread, Registry.removeAgent, List.getLast?]

/-- C3 witness for the amended statement, at a missing credential. -/
theorem C3_setup_failure_final_registry_witness :
    VoiceAgent.setup none true true = false ∧
    ((run_voice_agent_in_thread regOne 8 3 false).getD 0 regOne) 8 = some 3 ∧
    ((run_voice_agent_in_thread regOne 8 3 false).getLast?).map (fun r => r 8)
      = some none :=
  C3_setup_failure_final_registry none true true regOne 8 3 false (Or.inl rfl)

/-- C2 counterexample: a malformed text message followed by a well-formed
`ConversationText` — the receiver logs the decode error and *stops*; the
subsequent message is never processed (no `conversation_update` is
forwarded), refuting "skips that message and continues". -/
theorem C2_counterexample :
    receiverRun fmapTest true .completes
        [.text .malformed, .text (.decoded convTextMsg)] st0
      = ([.logError .jsonDecodeError], st0, .errorStop .jsonDecodeError) ∧
    .forwardToClient convTextMsg ∉
      (receiverRun fmapTest true .completes
        [.text .malformed, .text (.decoded convTextMsg)] st0).1 := by
  constructor <;> simp [receiverRun, st0]

/-- C2 (amended): a text message whose body fails to decode raises
`json.JSONDecodeError` out of the per-message dispatch; the outer handler
of the receiver logs it and the inbound loop terminates — the message is not
skipped, and no subsequent message is processed. -/
theorem C2_malformed_stops_loop (fmap : FMap) (connected : Bool)
    (co : CloseOutcome) (rest : List UpstreamMsg) (st : RecvState)
    (hsd : st.shutdown_event = false) :
    receiverRun fmap connected co (.text .malformed :: rest) st
      = ([.logError .jsonDecodeError], st, .errorStop .jsonDecodeError) := by
  simp [receiverRun, hsd]

/-- C2 witness: the amended statement at a concrete state and stream. -/
theorem C2_malformed_stops_loop_witness :
    receiverRun fmapTest true .completes [.text .malformed] st0
      = ([.logError .jsonDecodeError], st0, .errorStop .jsonDecodeError) :=
  C2_malformed_stops_loop fmapTest true .completes [] st0 rfl

/-- C1 counterexample: a two-function `FunctionCallRequest` followed by a
well-formed single-function call — the receiver emits no
`FunctionCallResponse` at all (in particular no error response for the
offending call), logs the escaped `NotImplementedError` and stops, so the
subsequent call never succeeds. -/
theorem C1_counterexample :
    receiverRun fmapTest true .completes
        [.text (.decoded multiCallMsg), .text (.decoded goodCallMsg)] st0
      = ([.logError .notImplementedError], st0,
         .errorStop .notImplementedError) ∧
    (receiverRun fmapTest true .completes
        [.text (.decoded multiCallMsg), .text (.decoded goodCallMsg)] st0).1.filter
        isSendResponse = [] := by
  constructor <;>
    simp [receiverRun, handleFunctionCall, st0, multiCallMsg, isSendResponse]

/-- C1 (amended): a `FunctionCallRequest` with more than one function makes
`_handle_function_call` raise `NotImplementedError` before any response is
constructed; no error response is sent back, and the exception escapes into
the inbound loop, whose outer handler logs it and ends the loop — the
condition is fatal to the receiver and subsequent calls are not processed. -/
theorem C1_multiple_functions_fatal (fmap : FMap) (connected : Bool)
    (co : CloseOutcome) (j : MsgJson) (rest : List UpstreamMsg) (st : RecvState)
    (hsd : st.shutdown_event = false)
    (hty : j.type = some "FunctionCallRequest")
    (hlen : 1 < j.functions.length) :
    handleFunctionCall fmap connected co j rest
      = .raised .notImplementedError ∧
    receiverRun fmap connected co (.text (.decoded j) :: rest) st
      = ([.logError .notImplementedError], st,
         .errorStop .notImplementedError) := by
  have hF : handleFunctionCall fmap connected co j rest
      = .raised .notImplementedError := by
    simp [handleFunctionCall, hlen]
  exact ⟨hF, by simp [receiverRun, hsd, hty, hF]⟩

/-- C1 witness: the amended statement at a concrete two-function call. -/
theorem C1_multiple_functions_fatal_witness :
    handleFunctionCall fmapTest true .completes multiCallMsg []
      = .raised .notImplementedError ∧
    receiverRun fmapTest true .completes [.text (.decoded multiCallMsg)] st0
      = ([.logError .notImplementedError], st0,
         .errorStop .notImplementedError) :=
  C1_multiple_functions_fatal fmapTest true .completes multiCallMsg [] st0
    rfl rfl (by decide)

/-- C9: a `FunctionCallRequest` with an empty `functions` list makes
`functions[0]` raise `IndexError` outside any exception guard, before any
`FunctionCallResponse` is constructed; the error escapes into the inbound
loop, which logs it and stops processing further messages. -/
theorem C9_empty_functions_escapes (fmap : FMap) (connected : Bool)
    (co : CloseOutcome) (j : MsgJson) (rest : List UpstreamMsg) (st : RecvState)
    (hsd : st.shutdown_event = false)
    (hty : j.type = some "FunctionCallRequest")
    (hfn : j.functions = []) :
    handleFunctionCall fmap connected co j rest = .raised .indexError ∧
    receiverRun fmap connected co (.text (.decoded j) :: rest) st
      = ([.logError .indexError], st, .errorStop .indexError) := by
  have hF : handleFunctionCall fmap connected co j rest
      = .raised .indexError := by
    simp [handleFunctionCall, hfn]
  exact ⟨hF, by simp [receiverRun, hsd, hty, hF]⟩

/-- C9 witness: the empty-functions request at a concrete input, with a
further message pending that is never processed. -/
theorem C9_empty_functions_escapes_witness :
    handleFunctionCall fmapTest true .completes emptyCallMsg
        [.text (.decoded goodCallMsg)] = .raised .indexError ∧
    receiverRun fmapTest true .completes
        [.text (.decoded emptyCallMsg), .text (.decoded goodCallMsg)] st0
      = ([.logError .indexError], st0, .errorStop .indexError) :=
  C9_empty_functions_escapes fmapTest true .completes emptyCallMsg
    [.text (.decoded goodCallMsg)] st0 rfl rfl rfl

/-- C5: for a single-function request whose arguments parse, if the name is
unknown in `FUNCTION_MAP`, or the handler raises under whichever calling
convention the dispatcher uses, the dispatcher completes normally with a
single error-shaped `FunctionCallResponse`, does not set the shutdown
event, consumes no further upstream messages, and the inbound loop
continues exactly as it would on the remaining messages — later calls still
succeed. -/
theorem C5_dispatch_error_contained (fmap : FMap) (connected : Bool)
    (co : CloseOutcome) (j : MsgJson) (f : FuncEntry) (args : Args)
    (rest : List UpstreamMsg) (st : RecvState)
    (hsd : st.shutdown_event = false)
    (hty : j.type = some "FunctionCallRequest")
    (hfn : j.functions = [f])
    (hargs : parseArguments f.arguments = .ok args)
    (hbad : f.name.bind fmap = none ∨
      ∃ h eP eS, f.name.bind fmap = some h ∧
        callPlain h args = .error eP ∧ callSpecial h args = .error eS) :
    ∃ e, handleFunctionCall fmap connected co j rest
        = .done [errorResponse f e] false 0 ∧
      receiverRun fmap connected co (.text (.decoded j) :: rest) st
        = (errorResponse f e :: (receiverRun fmap connected co rest st).1,
           (receiverRun fmap connected co rest st).2) := by
  have main : ∃ e, handleFunctionCall fmap connected co j rest
      = .done [errorResponse f e] false 0 := by
    rcases hbad with hnone | ⟨h, eP, eS, hh, hP, hS⟩
    · exact ⟨notFoundMsg f.name, by simp [handleFunctionCall, hfn, hargs, hnone]⟩
    · by_cases h1 : f.name = some "agent_filler"
      · rw [h1] at hh; simp only [Option.some_bind] at hh
        exact ⟨eS, by simp [handleFunctionCall, hfn, hargs, h1, hh, hS]⟩
      · by_cases h2 : f.name = some "end_call"
        · rw [h2] at hh; simp only [Option.some_bind] at hh
          exact ⟨eS, by simp [handleFunctionCall, hfn, hargs, h1, h2, hh, hS]⟩
        · exact ⟨eP, by simp [handleFunctionCall, hfn, hargs, hh, h1, h2, hP]⟩
  obtain ⟨e, hF⟩ := main
  refine ⟨e, hF, ?_⟩
  cases st with
  | mk lg sd =>
      simp only at hsd
      subst hsd
      simp [receiverRun, hty, hF]

/-- C5 witness: the raising handler `boom` — the dispatcher answers with an
error-shaped response and the receiver continues on the rest of the
stream. -/
theorem C5_dispatch_error_contained_witness :
    ∃ e, handleFunctionCall fmapTest true .completes boomCallMsg []
        = .done [errorResponse boomEntry e] false 0 ∧
      receiverRun fmapTest true .completes [.text (.decoded boomCallMsg)] st0
        = (errorResponse boomEntry e ::
            (receiverRun fmapTest true .completes [] st0).1,
           (receiverRun fmapTest true .completes [] st0).2) :=
  C5_dispatch_error_contained fmapTest true .completes boomCallMsg boomEntry
    [] [] st0 rfl rfl rfl rfl
    (Or.inr ⟨.plain fun _ => .error "boom", "boom", "TypeError",
      rfl, rfl, rfl⟩)

/-- C10: every upstream `ConversationText` is forwarded to the connected
client as a `conversation_update` (the loop then continues), while the
conversation sink is appended to only when both `role` and `content` are
present and non-empty — when either is missing or empty the sink is left
unchanged although forwarding still happens; with both fields truthy and an
active logging session the event is appended. -/
theorem C10_conversation_text (fmap : FMap) (co : CloseOutcome) (j : MsgJson)
    (rest : List UpstreamMsg) (st : RecvState)
    (hsd : st.shutdown_event = false)
    (hty : j.type = some "ConversationText") :
    (receiverRun fmap true co (.text (.decoded j) :: rest) st).1
      = .forwardToClient j ::
        (receiverRun fmap true co rest
          { st with conversation_logger :=
              (processConversationText true j st.conversation_logger).2 }).1 ∧
    ((truthy j.role && truthy j.content) = false →
      (processConversationText true j st.conversation_logger).2
        = st.conversation_logger) ∧
    (∀ sid, (truthy j.role && truthy j.content) = true →
      st.conversation_logger.session_id = some sid → sid ≠ "" →
      (processConversationText true j st.conversation_logger).2.conversation
        = st.conversation_logger.conversation
          ++ [(j.role.getD "", j.content.getD "")]) := by
  refine ⟨?_, ?_, ?_⟩
  · simp [receiverRun, hsd, hty, processConversationText]
  · intro h
    simp [processConversationText, h]
  · intro sid h hs hne
    simp [processConversationText, h, ConversationLogger.add_message, hs, hne]

/-- The wait loops of the farewell sequence find a match exactly when some
decoded message in the stream satisfies the predicate. -/
theorem scanUntil_isSome (p : MsgJson → Bool) :
    ∀ l : List UpstreamMsg, (scanUntil p l).2.isSome = anyDecoded p l := by
  intro l
  induction l with
  | nil => rfl
  | cons m rest ih =>
      cases m with
      | binary d => simpa [scanUntil, anyDecoded] using ih
      | text t =>
          cases t with
          | malformed => simpa [scanUntil, anyDecoded] using ih
          | decoded j =>
              by_cases hp : p j
              · simp [scanUntil, anyDecoded, hp]
              · simpa [scanUntil, anyDecoded, hp] using ih

/-- Every action the wait loops emit while scanning is an audio playback. -/
theorem scanUntil_acts_playAudio (p : MsgJson → Bool) :
    ∀ l : List UpstreamMsg, ∀ a ∈ (scanUntil p l).1, ∃ d, a = .playAudio d := by
  intro l
  induction l with
  | nil => intro a ha; simp [scanUntil] at ha
  | cons m rest ih =>
      cases m with
      | binary d =>
          intro a ha
          simp [scanUntil] at ha
          rcases ha with h | h
          · exact ⟨d, h⟩
          · exact ih a h
      | text t =>
          cases t with
          | malformed => intro a ha; simp [scanUntil] at ha; exact ih a ha
          | decoded j =>
              by_cases hp : p j
              · intro a ha; simp [scanUntil, hp] at ha
              · intro a ha; simp [scanUntil, hp] at ha; exact ih a ha

/-- If the stream contains full farewell evidence it in particular contains
an `AgentAudioDone`. -/
theorem containsFarewellEvidence_audioDone (inject : InjectMsg) :
    ∀ l : List UpstreamMsg, containsFarewellEvidence inject l = true →
      anyDecoded isAudioDone l = true := by
  intro l
  induction l with
  | nil => intro h; simp [containsFarewellEvidence] at h
  | cons m rest ih =>
      cases m with
      | binary d =>
          intro h
          simp [containsFarewellEvidence] at h
          simp [anyDecoded]
          exact ih h
      | text t =>
          cases t with
          | malformed =>
              intro h
              simp [containsFarewellEvidence] at h
              simp [anyDecoded]
              exact ih h
          | decoded j =>
              intro h
              simp [containsFarewellEvidence] at h
              simp [anyDecoded]
              rcases h with ⟨_, hdone⟩ | h
              · exact Or.inr hdone
              · exact Or.inr (ih h)

/-- The farewell wait completes exactly when the stream contains speaking
evidence followed (strictly later) by an `AgentAudioDone`. -/
theorem wait_for_farewell_completion_ok_iff (inject : InjectMsg) :
    ∀ l : List UpstreamMsg,
      exceptOk (wait_for_farewell_completion inject l)
        = containsFarewellEvidence inject l := by
  intro l
  induction l with
  | nil => rfl
  | cons m rest ih =>
      cases m with
      | binary d =>
          cases h1 : (scanUntil (isSpeakingEvidence inject) rest).2 with
          | none =>
              have hrest : exceptOk (wait_for_farewell_completion inject rest)
                  = false := by
                simp [wait_for_farewell_completion, h1, exceptOk]
              rw [hrest] at ih
              simp [wait_for_farewell_completion, scanUntil, h1, exceptOk,
                containsFarewellEvidence, ← ih]
          | some k1 =>
              have hrest : exceptOk (wait_for_farewell_completion inject rest)
                  = (scanUntil isAudioDone (rest.drop k1)).2.isSome := by
                cases h2 : (scanUntil isAudioDone (rest.drop k1)).2 <;>
                  simp [wait_for_farewell_completion, h1, h2, exceptOk]
              have hthis : exceptOk
                  (wait_for_farewell_completion inject (.binary d :: rest))
                  = (scanUntil isAudioDone (rest.drop k1)).2.isSome := by
                cases h2 : (scanUntil isAudioDone (rest.drop k1)).2 <;>
                  simp [wait_for_farewell_completion, scanUntil, h1, h2, exceptOk]
              rw [hthis, ← hrest, ih]
              simp [containsFarewellEvidence]
      | text t =>
          cases t with
          | malformed =>
              cases h1 : (scanUntil (isSpeakingEvidence inject) rest).2 with
              | none =>
                  have hrest : exceptOk (wait_for_farewell_completion inject rest)
                      = false := by
                    simp [wait_for_farewell_completion, h1, exceptOk]
                  rw [hrest] at ih
                  simp [wait_for_farewell_completion, scanUntil, h1, exceptOk,
                    containsFarewellEvidence, ← ih]
              | some k1 =>
                  have hrest : exceptOk (wait_for_farewell_completion inject rest)
                      = (scanUntil isAudioDone (rest.drop k1)).2.isSome := by
                    cases h2 : (scanUntil isAudioDone (rest.drop k1)).2 <;>
                      simp [wait_for_farewell_completion, h1, h2, exceptOk]
                  have hthis : exceptOk (wait_for_farewell_completion inject
                      (.text .malformed :: rest))
                      = (scanUntil isAudioDone (rest.drop k1)).2.isSome := by
                    cases h2 : (scanUntil isAudioDone (rest.drop k1)).2 <;>
                      simp [wait_for_farewell_completion, scanUntil, h1, h2,
                        exceptOk]
                  rw [hthis, ← hrest, ih]
                  simp [containsFarewellEvidence]
          | decoded j =>
              by_cases hp : isSpeakingEvidence inject j
              · have hthis : exceptOk (wait_for_farewell_completion inject
                    (.text (.decoded j) :: rest))
                    = (scanUntil isAudioDone rest).2.isSome := by
                  cases h2 : (scanUntil isAudioDone rest).2 <;>
                    simp [wait_for_farewell_completion, scanUntil, hp, h2,
                      exceptOk]
                rw [hthis, scanUntil_isSome]
                simp [containsFarewellEvidence, hp]
                intro h
                exact containsFarewellEvidence_audioDone inject rest h
              · cases h1 : (scanUntil (isSpeakingEvidence inject) rest).2 with
                | none =>
                    have hrest : exceptOk
                        (wait_for_farewell_completion inject rest) = false := by
                      simp [wait_for_farewell_completion, h1, exceptOk]
                    rw [hrest] at ih
                    simp [wait_for_farewell_completion, scanUntil, hp, h1,
                      exceptOk, containsFarewellEvidence, ← ih]
                | some k1 =>
                    have hrest : exceptOk
                        (wait_for_farewell_completion inject rest)
                        = (scanUntil isAudioDone (rest.drop k1)).2.isSome := by
                      cases h2 : (scanUntil isAudioDone (rest.drop k1)).2 <;>
                        simp [wait_for_farewell_completion, h1, h2, exceptOk]
                    have hthis : exceptOk (wait_for_farewell_completion inject
                        (.text (.decoded j) :: rest))
                        = (scanUntil isAudioDone (rest.drop k1)).2.isSome := by
                      cases h2 : (scanUntil isAudioDone (rest.drop k1)).2 <;>
                        simp [wait_for_farewell_completion, scanUntil, hp, h1,
                          h2, exceptOk]
                    rw [hthis, ← hrest, ih]
                    simp [containsFarewellEvidence, hp]

/-- When the farewell wait blocks forever, everything it has emitted is the
injected farewell or audio playback — none of the post-wait protocol
steps. -/
theorem wait_error_acts (inject : InjectMsg) (l : List UpstreamMsg)
    (a : List Act) (hw : wait_for_farewell_completion inject l = .error a) :
    ∀ x ∈ a, x = Act.sendInject inject ∨ ∃ d, x = Act.playAudio d := by
  unfold wait_for_farewell_completion at hw
  cases h1 : (scanUntil (isSpeakingEvidence inject) l).2 with
  | none =>
      simp [h1] at hw
      subst hw
      intro x hx
      simp at hx
      rcases hx with h | h
      · exact Or.inl h
      · exact Or.inr (scanUntil_acts_playAudio _ l x h)
  | some k1 =>
      cases h2 : (scanUntil isAudioDone (l.drop k1)).2 with
      | none =>
          simp [h1, h2] at hw
          subst hw
          intro x hx
          simp at hx
          rcases hx with h | h | h
          · exact Or.inl h
          · exact Or.inr (scanUntil_acts_playAudio _ l x h)
          · exact Or.inr (scanUntil_acts_playAudio _ (l.drop k1) x h)
      | some k2 => simp [h1, h2] at hw

/-- C4: the end-call protocol.  (1) Whenever `_handle_end_call` completes,
its trace is exactly: the `FunctionCallResponse`, then the injected
farewell, then only audio playback from the two wait loops, then the fixed
3.5-unit settle delay, then the `voice_agent_stopped` notification to the
client, then the bounded upstream close (force-closing on timeout), then
the shutdown signal — in that order.  (2) It completes exactly when the
upstream stream contains an `AgentStartedSpeaking` or a matching assistant
`ConversationText` followed later by an `AgentAudioDone`; (3) while blocked
it has performed none of the post-wait steps; (4) on a close timeout the
raw transport is force-closed. -/
theorem C4_end_call_protocol (callId fname : Option String)
    (r : SpecialResult) (stream : List UpstreamMsg) (co : CloseOutcome) :
    (∀ acts k, handle_end_call callId fname r true stream co = .ok (acts, k) →
      ∃ audio1 audio2,
        (∀ a ∈ audio1, ∃ d, a = Act.playAudio d) ∧
        (∀ a ∈ audio2, ∃ d, a = Act.playAudio d) ∧
        acts = .sendResponse callId fname (.ok r.function_response) ::
          .sendInject r.inject_message ::
          (audio1 ++ audio2 ++ [.settleDelay] ++ [.notifyStopped "end_call"] ++
            close_websocket_with_timeout co ++ [.setShutdown])) ∧
    exceptOk (handle_end_call callId fname r true stream co)
      = containsFarewellEvidence r.inject_message stream ∧
    (∀ acts, handle_end_call callId fname r true stream co = .error acts →
      Act.notifyStopped "end_call" ∉ acts ∧ Act.setShutdown ∉ acts ∧
      Act.closeUpstream ∉ acts ∧ Act.forceCloseUpstream ∉ acts) ∧
    close_websocket_with_timeout .timesOut
      = [.closeUpstream, .forceCloseUpstream] := by
  refine ⟨?_, ?_, ?_, rfl⟩
  · intro acts k h
    cases hw : wait_for_farewell_completion r.inject_message stream with
    | error a => simp [handle_end_call, hw] at h
    | ok pr =>
        obtain ⟨wacts, kk⟩ := pr
        unfold handle_end_call at h
        rw [hw] at h
        simp at h
        obtain ⟨hacts, hk⟩ := h
        unfold wait_for_farewell_completion at hw
        cases h1 : (scanUntil (isSpeakingEvidence r.inject_message) stream).2 with
        | none => simp [h1] at hw
        | some k1 =>
            cases h2 : (scanUntil isAudioDone (stream.drop k1)).2 with
            | none => simp [h1, h2] at hw
            | some k2 =>
                simp [h1, h2] at hw
                refine ⟨(scanUntil (isSpeakingEvidence r.inject_message) stream).1,
                  (scanUntil isAudioDone (stream.drop k1)).1,
                  scanUntil_acts_playAudio _ stream,
                  scanUntil_acts_playAudio _ (stream.drop k1), ?_⟩
                rw [← hacts, ← hw.1]
                simp
  · rw [← wait_for_farewell_completion_ok_iff]
    cases hw : wait_for_farewell_completion r.inject_message stream with
    | error a => simp [handle_end_call, hw, exceptOk]
    | ok pr => obtain ⟨wacts, kk⟩ := pr; simp [handle_end_call, hw, exceptOk]
  · intro acts h
    cases hw : wait_for_farewell_completion r.inject_message stream with
    | ok pr => obtain ⟨wacts, kk⟩ := pr; simp [handle_end_call, hw] at h
    | error a =>
        unfold handle_end_call at h
        rw [hw] at h
        simp at h
        have key : ∀ x ∈ acts,
            x = Act.sendResponse callId fname (.ok r.function_response) ∨
            x = Act.sendInject r.inject_message ∨
            ∃ d, x = Act.playAudio d := by
          intro x hx
          rw [← h] at hx
          simp at hx
          rcases hx with hx | hx
          · exact Or.inl hx
          · exact Or.inr (wait_error_acts r.inject_message stream a hw x hx)
        refine ⟨?_, ?_, ?_, ?_⟩ <;>
          · intro hx
            rcases key _ hx with hc | hc | ⟨d, hc⟩ <;> simp at hc

/-- C4 witness: a concrete end-call run — the upstream answers with
`AgentStartedSpeaking` then `AgentAudioDone`, the close handshake times
out — evaluated end to end, plus the conclusions of the theorem instantiated
there. -/
theorem C4_end_call_protocol_witness :
    handle_end_call (some "c1") (some "end_call") farewellResult true
        [.text (.decoded startedSpeakingMsg), .text (.decoded audioDoneMsg)]
        .timesOut
      = .ok ([.sendResponse (some "c1") (some "end_call") (.ok "status closing"),
              .sendInject { message := "Goodbye! Have a nice day!" },
              .settleDelay, .notifyStopped "end_call",
              .closeUpstream, .forceCloseUpstream, .setShutdown], 2) ∧
    exceptOk (handle_end_call (some "c1") (some "end_call") farewellResult true
        [.text (.decoded startedSpeakingMsg), .text (.decoded audioDoneMsg)]
        .timesOut)
      = containsFarewellEvidence farewellResult.inject_message
        [.text (.decoded startedSpeakingMsg), .text (.decoded audioDoneMsg)] ∧
    (∃ audio1 audio2,
      (∀ a ∈ audio1, ∃ d, a = Act.playAudio d) ∧
      (∀ a ∈ audio2, ∃ d, a = Act.playAudio d) ∧
      ([Act.sendResponse (some "c1") (some "end_call") (.ok "status closing"),
        Act.sendInject { message := "Goodbye! Have a nice day!" },
        Act.settleDelay, Act.notifyStopped "end_call",
        Act.closeUpstream, Act.forceCloseUpstream, Act.setShutdown] : List Act)
        = .sendResponse (some "c1") (some "end_call") (.ok "status closing") ::
          .sendInject { message := "Goodbye! Have a nice day!" } ::
          (audio1 ++ audio2 ++ [.settleDelay] ++ [.notifyStopped "end_call"] ++
            close_websocket_with_timeout .timesOut ++ [.setShutdown])) :=
  ⟨rfl,
   (C4_end_call_protocol (some "c1") (some "end_call") farewellResult
      [.text (.decoded startedSpeakingMsg), .text (.decoded audioDoneMsg)]
      .timesOut).2.1,
   (C4_end_call_protocol (some "c1") (some "end_call") farewellResult
      [.text (.decoded startedSpeakingMsg), .text (.decoded audioDoneMsg)]
      .timesOut).1 _ 2 rfl⟩

/-- C10 witness: a user "hello" `ConversationText` in a session with active
logging — forwarded to the client, appended to the sink; and a
`ConversationText` with a missing `content` leaves the sink unchanged. -/
theorem C10_conversation_text_witness :
    (receiverRun fmapTest true .completes [.text (.decoded convTextMsg)] st1).1
      = .forwardToClient convTextMsg ::
        (receiverRun fmapTest true .completes []
          { st1 with conversation_logger :=
              (processConversationText true convTextMsg
                st1.conversation_logger).2 }).1 ∧
    (processConversationText true convTextMsg st1.conversation_logger).2.conversation
      = st1.conversation_logger.conversation ++ [("user", "hello")] ∧
    (processConversationText true convTextNoContentMsg
        st1.conversation_logger).2 = st1.conversation_logger :=
  ⟨(C10_conversation_text fmapTest .completes convTextMsg [] st1 rfl rfl).1,
   (C10_conversation_text fmapTest .completes convTextMsg [] st1 rfl rfl).2.2
     "abc123" rfl rfl (by decide),
   (C10_conversation_text fmapTest .completes convTextNoContentMsg [] st1
     rfl rfl).2.1 rfl⟩
